import Mathlib

/-!
Verification of `storagelib` (storagelib.py, ssh.py): backend descriptors,
the SRV-style weighted ordering in `StorageContext.sort_repos`, the
failover loop in `StorageContext.store`, the naming policies, and the
local / ssh `store` implementations.

Modelling conventions:
* `os.path` helpers are translated as pure string functions.
* Randomness (`random.randint`, `random.choice`, `datetime.now`) is made
  explicit as streams passed to the functions: `d : Nat → Nat` yields the
  successive `randint` results, `rnd : Nat → String` the successive
  10-character random tokens, `ts : Nat → String` the successive
  timestamp strings.
* The filesystem is an environment: `ex : String → Bool` is
  `os.path.exists`, `writable : String → Bool` is `os.access(_, W_OK)`.
* Unbounded `while` loops / recursion are given explicit fuel and return
  `Option` (`none` = the loop has not terminated within the fuel).
* Python exceptions are `Except` errors; an implicit `return None` is
  `Except.ok none`.
-/

namespace Storagelib

/-- `str.startswith`: is the first list a prefix of the second. -/
def listPrefixOf : List Char → List Char → Bool
  | [], _ => true
  | _, [] => false
  | a :: as, b :: bs => a == b && listPrefixOf as bs

/-- Python `str.startswith`. -/
def strStartsWith (s pre : String) : Bool := listPrefixOf pre.toList s.toList

/-- Python `str.endswith`. -/
def strEndsWith (s post : String) : Bool :=
  listPrefixOf post.toList.reverse s.toList.reverse

/-- `os.path.basename` (posix): the part after the last slash. -/
def basenamePy (p : String) : String :=
  String.mk ((p.toList.reverse.takeWhile (fun c => c ≠ '/')).reverse)

/-- `os.path.dirname` (posix): the part before the last slash, with
trailing slashes stripped unless the result is all slashes. -/
def dirnamePy (p : String) : String :=
  let head := ((p.toList).reverse.dropWhile (fun c => c ≠ '/')).reverse
  if head.all (fun c => c = '/') then String.mk head
  else String.mk ((head.reverse.dropWhile (fun c => c = '/')).reverse)

/-- `os.path.join` (posix, two arguments). -/
def pathJoin (a b : String) : String :=
  if strStartsWith b "/" then b
  else if a = "" ∨ strEndsWith a "/" then a ++ b
  else a ++ "/" ++ b

/-- The extension component of `os.path.splitext`: the suffix of the
basename starting at its last dot, provided some earlier character of the
basename is not a dot (so ".bashrc" has no extension). -/
def extOf (p : String) : String :=
  let tailRev := p.toList.reverse.takeWhile (fun c => c ≠ '/')
  let afterRev := tailRev.takeWhile (fun c => c ≠ '.')
  if afterRev.length = tailRev.length then ""
  else
    let before := (tailRev.drop (afterRev.length + 1)).reverse
    if before.any (fun c => c ≠ '.') then String.mk ('.' :: afterRev.reverse) else ""

/-- A configured storage backend: the attribute set of `BaseStorage`
(storagelib.py lines 119-134).  The Python attribute `structure` is
spelled `structure_` because `structure` is a Lean keyword. -/
structure Storage where
  name : String
  dest : String
  base_uri : String
  name_policy : String
  structure_ : String
  priority : Nat
  weight : Nat
deriving DecidableEq, Repr

/-- A file handle: display name plus opaque content (`finst.filename` /
`finst.read()`). -/
structure FileInst where
  filename : String
  content : String
deriving DecidableEq, Repr

/-- `np_random` (storagelib.py lines 61-69): generate a random basename in
the directory of `path`; while the result exists, recurse.  The recursion
regenerates a token in the same directory, so it is the iteration
modelled here; `fuel` bounds the number of iterations (`none` = the
original code has not terminated within `fuel` rounds). -/
def np_random (ex : String → Bool) (rnd : Nat → String) :
    Nat → Nat → String → Option String
  | 0, _, _ => none
  | fuel+1, k, path =>
    let npath := pathJoin (dirnamePy path) (rnd k)
    if ex npath then np_random ex rnd fuel (k+1) npath else some npath

/-- The loop body of `np_preserve` (storagelib.py lines 72-81):
`npath = path`; while `npath` exists, `npath = path + '.' + timestamp`.
Note each retry is built from the original `path`, not from the previous
candidate. -/
def npPreserveAux (ex : String → Bool) (ts : Nat → String) (path : String) :
    Nat → Nat → String → Option String
  | 0, _, _ => none
  | fuel+1, k, npath =>
    if ex npath then npPreserveAux ex ts path fuel (k+1) (path ++ "." ++ ts k)
    else some npath

/-- `np_preserve` (storagelib.py lines 72-81). -/
def np_preserve (ex : String → Bool) (ts : Nat → String) (fuel : Nat)
    (path : String) : Option String :=
  npPreserveAux ex ts path fuel 0 path

/-- `np_preserve_ext` (storagelib.py lines 83-95): like `np_random` but the
extension of the current candidate is appended to the generated token. -/
def np_preserve_ext (ex : String → Bool) (rnd : Nat → String) :
    Nat → Nat → String → Option String
  | 0, _, _ => none
  | fuel+1, k, path =>
    let npath := pathJoin (dirnamePy path) (rnd k) ++ extOf path
    if ex npath then np_preserve_ext ex rnd fuel (k+1) npath else some npath

/-- The `_NAME_POLICIES` dispatch table (storagelib.py lines 70, 81, 95).
An unknown policy key raises `KeyError` in Python; that and policy
non-termination are both `none` here. -/
def name_policies (ex : String → Bool) (rnd ts : Nat → String) (fuel : Nat)
    (policy path : String) : Option String :=
  if policy = "random" then np_random ex rnd fuel 0 path
  else if policy = "preserve" then np_preserve ex ts fuel path
  else if policy = "preserve_ext" then np_preserve_ext ex rnd fuel 0 path
  else none

/-- `BaseStorage.get_name` (storagelib.py lines 136-147): join the file's
basename onto `dest` and apply the configured naming policy. -/
def BaseStorage.get_name (ex : String → Bool) (rnd ts : Nat → String)
    (fuel : Nat) (self : Storage) (finst : FileInst) : Option String :=
  let fname := basenamePy finst.filename
  let fpath := pathJoin self.dest fname
  name_policies ex rnd ts fuel self.name_policy fpath

/-- `BaseStorage.setup` (storagelib.py lines 149-156): `os.access(dest, W_OK)`. -/
def BaseStorage.setup (writable : String → Bool) (self : Storage) : Bool :=
  writable self.dest

/-- `BaseStorage.store` (storagelib.py lines 158-168).  Returns the URI,
the storage object after the call (the code executes
`self.base_uri += '/'` when `base_uri` lacks a trailing slash), and the
path written to.  `none` = `get_name` never returned. -/
def BaseStorage.store (ex : String → Bool) (rnd ts : Nat → String)
    (fuel : Nat) (self : Storage) (finst : FileInst) :
    Option (String × Storage × String) :=
  (BaseStorage.get_name ex rnd ts fuel self finst).map fun name =>
    let new_name := basenamePy name
    let buri := if strEndsWith self.base_uri "/" then self.base_uri
                else self.base_uri ++ "/"
    (buri ++ new_name, { self with base_uri := buri }, name)

/-- Error vocabulary for a route operation.  The code defines no
exception classes; `backendUnavailable` is the spec's name for an
exhaustion error and exists here only so the corresponding claim can be
stated — no function in this file ever produces it.  `storeFailure` is a
write error raised inside a backend's `store`. -/
inductive Err
  | backendUnavailable
  | storeFailure
deriving DecidableEq, Repr

/-- `Storage.store` of ssh.py (lines 64-77): `get_name`, write through the
SFTP client (`writeOk name` tells whether the write succeeds or raises),
`self.client.close()`, then the same URI computation (and `base_uri`
mutation) as the local backend.  The result carries the storage object
after the call and the number of times `close()` was called.  When the
write raises, the exception propagates before `close()` and before the
`base_uri` mutation. -/
def SshStorage.store (ex : String → Bool) (rnd ts : Nat → String)
    (fuel : Nat) (writeOk : String → Bool) (self : Storage)
    (finst : FileInst) : Option (Except Err String × Storage × Nat) :=
  (BaseStorage.get_name ex rnd ts fuel self finst).map fun name =>
    if writeOk name then
      let buri := if strEndsWith self.base_uri "/" then self.base_uri
                  else self.base_uri ++ "/"
      (Except.ok (buri ++ basenamePy name), { self with base_uri := buri }, 1)
    else (Except.error Err.storeFailure, self, 0)

/-- `cmp_storages` (storagelib.py lines 170-177): compare by priority,
breaking ties by weight (integer subtraction as a three-way compare). -/
def cmp_storages (repo1 repo2 : Storage) : Int :=
  if repo1.priority = repo2.priority then (repo1.weight : Int) - (repo2.weight : Int)
  else (repo1.priority : Int) - (repo2.priority : Int)

/-- The "less or equal" relation induced by `cmp_storages`, used to model
`list.sort(cmp_storages)`. -/
def storageLe (a b : Storage) : Prop := cmp_storages a b ≤ 0

instance : DecidableRel storageLe := fun a b =>
  inferInstanceAs (Decidable (cmp_storages a b ≤ 0))

/-- `self.repo_list.sort(cmp_storages)` (storagelib.py line 237): Python's
sort is the stable sort w.r.t. the comparator, which for the consistent
comparator `cmp_storages` coincides with stable insertion sort by
`storageLe`. -/
def sortStorages (l : List Storage) : List Storage :=
  List.insertionSort storageLe l

/-- Outcomes of the selection loop of `sort_repos` that are not a result
list: `valueError` is the `ValueError` `randint` raises on an empty range
(`sum_ + 1 < 0`); `nameError` is the `NameError` Python would raise if the
`for` loop ran over an empty list leaving `repo` unbound; `invalidDraw`
and `fuelOut` mark traces that correspond to no real execution (a drawn
number outside `randint`'s range, resp. insufficient modelling fuel). -/
inductive SelErr
  | valueError
  | invalidDraw
  | nameError
  | fuelOut
deriving DecidableEq, Repr

/-- The `for repo in unordered` scan (storagelib.py lines 263-266): break
at the first element with `repo.weight >= rand_num`, subtracting weights
along the way; if no element satisfies the test, Python's loop variable is
left at the last element, which is then the one appended and removed.
Returns the position and the element. -/
def pickSel (rand : Int) : List Storage → Option (Nat × Storage)
  | [] => none
  | [r] => some (0, r)
  | r :: s :: rest =>
    if rand ≤ (r.weight : Int) then some (0, r)
    else (pickSel (rand - (r.weight : Int)) (s :: rest)).map fun p => (p.1 + 1, p.2)

/-- The inner `while count:` loop of `sort_repos` (storagelib.py lines
261-270), run for `count` steps: draw `rand_num = randint(0, sum_+1)`,
scan `unordered` (the whole remaining list, not just the current
priority tier), append the selected element to `ordered`, remove it from
`unordered`, and subtract its weight from `sum_`.  `k` indexes the draw
stream; the state returned is the next draw index and the two lists. -/
def selLoop (d : Nat → Nat) :
    Nat → Nat → Int → List Storage → List Storage →
    Except SelErr (Nat × List Storage × List Storage)
  | 0, k, _, unordered, ordered => .ok (k, unordered, ordered)
  | count+1, k, sum_, unordered, ordered =>
    if sum_ + 1 < 0 then .error .valueError
    else if (d k : Int) > sum_ + 1 then .error .invalidDraw
    else
      match pickSel (d k) unordered with
      | none => .error .nameError
      | some (i, repo) =>
        selLoop d count (k+1) (sum_ - (repo.weight : Int))
          (unordered.eraseIdx i) (ordered ++ [repo])

/-- The outer `while unordered:` loop of `sort_repos` (storagelib.py lines
245-270): take the priority of the head, collect `current_priority`, sum
its weights, and run the inner loop `len(current_priority)` times. -/
def sortLoop (d : Nat → Nat) :
    Nat → Nat → List Storage → List Storage → Except SelErr (List Storage)
  | 0, _, unordered, ordered =>
    if unordered.isEmpty then .ok ordered else .error .fuelOut
  | fuel+1, k, unordered, ordered =>
    match unordered with
    | [] => .ok ordered
    | u0 :: _ =>
      let current_priority := unordered.filter (fun r => r.priority = u0.priority)
      let sum_ : Int := (current_priority.map (fun x => (x.weight : Int))).sum
      match selLoop d current_priority.length k sum_ unordered ordered with
      | .error e => .error e
      | .ok (k', unordered', ordered') => sortLoop d fuel k' unordered' ordered'

/-- `StorageContext.sort_repos` (storagelib.py lines 231-270).  The first
component is `self.repo_list` after the call: the method sorts the list in
place with `cmp_storages` and the weighted-selection phase only operates
on copies (`unordered = self.repo_list[:]`, a fresh `ordered`), so the
local `ordered` list — the second component — is computed and then
discarded, never assigned back to `self.repo_list`. -/
def StorageContext.sort_repos (d : Nat → Nat) (repo_list : List Storage) :
    List Storage × Except SelErr (List Storage) :=
  let sorted := sortStorages repo_list
  (sorted, sortLoop d (sorted.length + 1) 0 sorted [])

/-- The candidate iteration of `StorageContext.store` (storagelib.py lines
277-280): skip every storage whose `setup()` is false and return the
`store()` result of the first one whose `setup()` is true; if the loop
exhausts the list the Python function returns `None` (`.ok none`).  The
backend methods are passed in as functions (`setupB`, `storeB`) modelling
the dynamic dispatch; the second component records which storages
`store()` was invoked on. -/
def StorageContext.storeLoop (setupB : Storage → Bool)
    (storeB : Storage → Except Err String) :
    List Storage → Except Err (Option String) × List Storage
  | [] => (.ok none, [])
  | s :: rest =>
    if setupB s then
      match storeB s with
      | .ok u => (.ok (some u), [s])
      | .error e => (.error e, [s])
    else StorageContext.storeLoop setupB storeB rest

/-- `StorageContext.store` (storagelib.py lines 272-280): re-run
`sort_repos` (an exception there propagates and no backend is attempted),
then iterate `self.repo_list` — which is the sorted first component of
`sort_repos`, not the discarded `ordered` list. -/
def StorageContext.store (d : Nat → Nat) (setupB : Storage → Bool)
    (storeB : Storage → Except Err String) (repo_list : List Storage) :
    Except SelErr (Except Err (Option String) × List Storage) :=
  match (StorageContext.sort_repos d repo_list).2 with
  | .error e => .error e
  | .ok _ =>
    .ok (StorageContext.storeLoop setupB storeB
      (StorageContext.sort_repos d repo_list).1)

/-- A storage descriptor with the fields the ordering claims care about;
the remaining fields are fixed harmless values. -/
def mkS (name : String) (p w : Nat) : Storage :=
  { name := name, dest := "/d", base_uri := "u", name_policy := "preserve",
    structure_ := "", priority := p, weight := w }

/-- Two equal-priority backends whose weights differ by three orders of
magnitude. -/
def stA1 : Storage := mkS "A" 0 1

def stB1 : Storage := mkS "B" 0 1000

/-- Draw stream: first draw 2, then 0. -/
def dC1 : Nat → Nat := fun k => if k = 0 then 2 else 0

def stA2 : Storage := mkS "a2" 0 0

def stB2 : Storage := mkS "b2" 1 7

/-- Draw stream: first draw 1, then 0. -/
def dC2 : Nat → Nat := fun k => if k = 0 then 1 else 0

def stE3 : Storage := mkS "E" 0 2

def stF3 : Storage := mkS "F" 0 0

def stG3 : Storage := mkS "G" 1 5

def stA4 : Storage := mkS "a4" 0 0

def stC4 : Storage := mkS "c4" 0 0

def stB4 : Storage := mkS "b4" 1 5

/-- A local-backend descriptor whose `base_uri` lacks a trailing slash. -/
def st8 : Storage :=
  { name := "s", dest := "/d", base_uri := "http://x", name_policy := "preserve",
    structure_ := "", priority := 0, weight := 0 }

def f8 : FileInst := { filename := "note.txt", content := "c" }

/-! ## Ordering facts about `cmp_storages` and the sort -/

/-- `cmp_storages repo1 repo2 <= 0` is exactly the lexicographic
(priority, weight) order. -/
theorem storageLe_iff (a b : Storage) :
    storageLe a b ↔
      (a.priority < b.priority ∨ (a.priority = b.priority ∧ a.weight ≤ b.weight)) := by
  unfold storageLe cmp_storages
  by_cases h : a.priority = b.priority
  · rw [if_pos h]
    omega
  · rw [if_neg h]
    omega

instance : IsTotal Storage storageLe :=
  ⟨fun a b => by rw [storageLe_iff, storageLe_iff]; omega⟩

instance : IsTrans Storage storageLe :=
  ⟨fun a b c hab hbc => by
    rw [storageLe_iff] at hab hbc ⊢; omega⟩

theorem sorted_sortStorages (l : List Storage) :
    List.Sorted storageLe (sortStorages l) :=
  List.sorted_insertionSort storageLe l

theorem perm_sortStorages (l : List Storage) :
    List.Perm (sortStorages l) l :=
  List.perm_insertionSort storageLe l

/-- If every storage in the list fails `setup`, the candidate loop falls
through every entry: no `store` call, result `None`. -/
theorem storeLoop_all_fail (setupB : Storage → Bool)
    (storeB : Storage → Except Err String) :
    ∀ repos : List Storage, (∀ s ∈ repos, setupB s = false) →
      StorageContext.storeLoop setupB storeB repos = (.ok none, [])
  | [], _ => rfl
  | s :: rest, h => by
    have hs : setupB s = false := h s (by simp)
    have ih := storeLoop_all_fail setupB storeB rest
      (fun x hx => h x (by simp [hx]))
    simp [StorageContext.storeLoop, hs, ih]

/-- With every path existing, `np_random` never leaves its retry loop. -/
theorem np_random_all_exists (rnd : Nat → String) :
    ∀ (fuel k : Nat) (path : String),
      np_random (fun _ => true) rnd fuel k path = none
  | 0, _, _ => rfl
  | fuel+1, k, path => by
    simp [np_random, np_random_all_exists rnd fuel]

/-- With every path existing, the `np_preserve` loop never exits. -/
theorem npPreserveAux_all_exists (ts : Nat → String) (path : String) :
    ∀ (fuel k : Nat) (npath : String),
      npPreserveAux (fun _ => true) ts path fuel k npath = none
  | 0, _, _ => rfl
  | fuel+1, k, npath => by
    simp [npPreserveAux, npPreserveAux_all_exists ts path fuel]

/-- With every path existing, `np_preserve_ext` never leaves its retry
loop. -/
theorem np_preserve_ext_all_exists (rnd : Nat → String) :
    ∀ (fuel k : Nat) (path : String),
      np_preserve_ext (fun _ => true) rnd fuel k path = none
  | 0, _, _ => rfl
  | fuel+1, k, path => by
    simp [np_preserve_ext, np_preserve_ext_all_exists rnd fuel]

/-! ## Claim theorems -/

/-- C1 (code_bug evaluation): on two equal-priority backends with weights
1 and 1000 and a draw stream that makes the weighted selection emit
`[stB1, stA1]`, `sort_repos` leaves `repo_list` as the `cmp_storages`-sorted
`[stA1, stB1]` — the computed `ordered` list differs from it and is
discarded — and `StorageContext.store` then attempts `stA1` first, so the
weighted selection never influences the attempt order. -/
theorem c1_weighted_order_never_applied :
    StorageContext.sort_repos dC1 [stA1, stB1] =
      ([stA1, stB1], .ok [stB1, stA1]) ∧
    ([stB1, stA1] : List Storage) ≠ [stA1, stB1] ∧
    StorageContext.store dC1 (fun _ => true) (fun s => .ok s.name)
      [stA1, stB1] = .ok (.ok (some "A"), [stA1]) :=
  ⟨rfl, by decide, rfl⟩

/-- C2 (counterexample): with storages of priorities 0 and 1 and the draw
stream `dC2`, the weighted-selection output is `[stB2, stA2]`: the
priority-1 backend appears before the priority-0 backend in a generated
ordering, refuting priority dominance for the weighted-selection output. -/
theorem c2_selection_can_violate_priority :
    StorageContext.sort_repos dC2 [stA2, stB2] =
      ([stA2, stB2], .ok [stB2, stA2]) ∧
    stA2.priority < stB2.priority :=
  ⟨rfl, by decide⟩

/-- C2 (amended): in the list the router actually iterates — the first
component of `sort_repos`, i.e. `repo_list` after the in-place
`cmp_storages` sort — a backend with strictly smaller priority always
appears before one with larger priority, for every draw stream. -/
theorem c2_router_priority_dominance (d : Nat → Nat) (l : List Storage)
    (i j : Nat) (a b : Storage)
    (ha : ((StorageContext.sort_repos d l).1)[i]? = some a)
    (hb : ((StorageContext.sort_repos d l).1)[j]? = some b)
    (hab : a.priority < b.priority) : i < j := by
  have hfst : (StorageContext.sort_repos d l).1 = sortStorages l := rfl
  rw [hfst] at ha hb
  rw [List.getElem?_eq_some_iff] at ha hb
  obtain ⟨hi, hai⟩ := ha
  obtain ⟨hj, hbj⟩ := hb
  by_contra hij
  push_neg at hij
  rcases Nat.lt_or_eq_of_le hij with hlt | heq
  · have hrel := (List.pairwise_iff_getElem.mp (sorted_sortStorages l)) j i hj hi hlt
    rw [hbj, hai, storageLe_iff] at hrel
    omega
  · subst heq
    rw [hai] at hbj
    subst hbj
    exact absurd hab (lt_irrefl _)

/-- C2 witness: a concrete instantiation of
`c2_router_priority_dominance`. -/
theorem c2_router_priority_dominance_witness :
    ((StorageContext.sort_repos dC2 [stB2, stA2]).1)[0]? = some stA2 ∧
    ((StorageContext.sort_repos dC2 [stB2, stA2]).1)[1]? = some stB2 ∧
    stA2.priority < stB2.priority ∧ (0 : Nat) < 1 :=
  ⟨rfl, rfl, by decide,
    c2_router_priority_dominance dC2 [stB2, stA2] 0 1 stA2 stB2 rfl rfl
      (by decide)⟩

/-- C3 (code_bug evaluation): the extraction step does not match the
claim.  First conjunct: on the single tier `[stE3]` with weight sum 2,
the constant draw 3 = sum + 1 is a legal `randint(0, sum_+1)` outcome and
the run completes — the draw range is `[0, sum+1]`, not `[0, sum]`.
Second conjunct: processing the priority-0 tier `[stF3]` (weight sum 0)
with draw 1, the scan walks past the tier into the remaining list and
selects `stG3`, which belongs to the priority-1 tier. -/
theorem c3_draw_range_and_cross_tier_walk :
    StorageContext.sort_repos (fun _ => 3) [stE3] = ([stE3], .ok [stE3]) ∧
    StorageContext.sort_repos dC2 [stF3, stG3] =
      ([stF3, stG3], .ok [stG3, stF3]) ∧
    stF3.priority ≠ stG3.priority :=
  ⟨rfl, rfl, by decide⟩

/-- C4 (code_bug evaluation): an all-zero-weight tier is not handled as
claimed.  First conjunct: with the zero-weight priority-0 tier
`[stA4, stC4]` followed by `stB4` (priority 1, weight 5) and first draw
1, the scan selects `stB4` from the other tier, the running sum becomes
negative, and the next `randint(0, sum_+1)` call raises `ValueError` — the
selection crashes instead of emitting the tier.  Second conjunct: even a
lone all-zero tier is emitted as `[stC4, stA4]` under draw 1, not in the
original relative order. -/
theorem c4_zero_weight_tier_crash_and_reorder :
    StorageContext.sort_repos dC2 [stA4, stC4, stB4] =
      ([stA4, stC4, stB4], .error .valueError) ∧
    StorageContext.sort_repos (fun _ => 1) [stA4, stC4] =
      ([stA4, stC4], .ok [stC4, stA4]) ∧
    ([stC4, stA4] : List Storage) ≠ [stA4, stC4] :=
  ⟨rfl, rfl, by decide⟩

/-- C5 (counterexample): with both configured backends failing `setup`,
`StorageContext.store` completes normally with no URI (`Except.ok none`,
Python's implicit `return None`) and invokes `store` on no backend — it
does not fail with a `BackendUnavailable` error. -/
theorem c5_exhaustion_not_an_error :
    StorageContext.store (fun _ => 0) (fun _ => false) (fun s => .ok s.name)
      [mkS "a" 0 0, mkS "b" 0 0] = .ok (.ok none, []) ∧
    ((Except.ok none : Except Err (Option String)) ≠
      Except.error Err.backendUnavailable) :=
  ⟨rfl, fun hcontra => Except.noConfusion hcontra⟩

/-- C5 (amended): if every configured backend's `setup` returns false and
the selection phase completes without an exception, the route operation
returns `None` (no URI, no error raised) and `store` is invoked on no
backend, so no file write occurs anywhere. -/
theorem c5_exhaustion_returns_none_no_store (d : Nat → Nat)
    (setupB : Storage → Bool) (storeB : Storage → Except Err String)
    (repos sel : List Storage)
    (hall : ∀ s ∈ repos, setupB s = false)
    (hsel : (StorageContext.sort_repos d repos).2 = .ok sel) :
    StorageContext.store d setupB storeB repos = .ok (.ok none, []) := by
  have h1 : StorageContext.store d setupB storeB repos =
      .ok (StorageContext.storeLoop setupB storeB
        (StorageContext.sort_repos d repos).1) := by
    unfold StorageContext.store
    rw [hsel]
  have hmem : ∀ s ∈ (StorageContext.sort_repos d repos).1, setupB s = false := by
    intro s hs
    have hfst : (StorageContext.sort_repos d repos).1 = sortStorages repos := rfl
    rw [hfst] at hs
    exact hall s ((perm_sortStorages repos).mem_iff.mp hs)
  rw [h1, storeLoop_all_fail setupB storeB _ hmem]

/-- C5 witness: a concrete instantiation of
`c5_exhaustion_returns_none_no_store`. -/
theorem c5_exhaustion_returns_none_no_store_witness :
    StorageContext.store (fun _ => 0) (fun _ => false) (fun s => .ok s.name)
      [mkS "a" 0 0, mkS "b" 0 0] = .ok (.ok none, []) :=
  c5_exhaustion_returns_none_no_store (fun _ => 0) (fun _ => false)
    (fun s => .ok s.name) [mkS "a" 0 0, mkS "b" 0 0]
    [mkS "a" 0 0, mkS "b" 0 0] (by decide) rfl

/-- C6: on the candidate list `[A, B]` at equal priority, with `A` failing
`setup` and `B` passing it and returning URI `u` from `store`, the
candidate loop of `StorageContext.store` skips `A`, invokes `store` only
on `B`, and returns `u`; in particular `A`'s `store` is never invoked. -/
theorem c6_failover_skips_failed_setup (setupB : Storage → Bool)
    (storeB : Storage → Except Err String) (A B : Storage) (u : String)
    (_hp : A.priority = B.priority) (hA : setupB A = false)
    (hB : setupB B = true) (hsB : storeB B = .ok u) :
    StorageContext.storeLoop setupB storeB [A, B] = (.ok (some u), [B]) ∧
    A ∉ (StorageContext.storeLoop setupB storeB [A, B]).2 := by
  have h1 : StorageContext.storeLoop setupB storeB [A, B] =
      (.ok (some u), [B]) := by
    simp [StorageContext.storeLoop, hA, hB, hsB]
  refine ⟨h1, ?_⟩
  rw [h1]
  simp only [List.mem_singleton]
  intro hAB
  rw [hAB, hB] at hA
  exact Bool.noConfusion hA

/-- C6 witness: a concrete instantiation of
`c6_failover_skips_failed_setup`. -/
theorem c6_failover_skips_failed_setup_witness :
    StorageContext.storeLoop (fun s => s.name == "b") (fun _ => .ok "u/x")
      [mkS "a" 0 0, mkS "b" 0 1] = (.ok (some "u/x"), [mkS "b" 0 1]) ∧
    mkS "a" 0 0 ∉ (StorageContext.storeLoop (fun s => s.name == "b")
      (fun _ => .ok "u/x") [mkS "a" 0 0, mkS "b" 0 1]).2 :=
  c6_failover_skips_failed_setup (fun s => s.name == "b") (fun _ => .ok "u/x")
    (mkS "a" 0 0) (mkS "b" 0 1) "u/x" rfl rfl rfl rfl

/-- C7 (counterexample): facing unlimited collisions (every path exists),
each of the three naming policies has produced neither a final path nor
any error after 101 retry iterations — past the claimed bound of 100 —
and (`c7_policies_retry_forever`) never will: the code has no retry bound
and no `PolicyError`. -/
theorem c7_policies_unbounded :
    np_preserve (fun _ => true) (fun _ => "T") 101 "a" = none ∧
    np_random (fun _ => true) (fun _ => "R") 101 0 "a" = none ∧
    np_preserve_ext (fun _ => true) (fun _ => "R") 101 0 "a.txt" = none :=
  ⟨rfl, rfl, rfl⟩

/-- C7 (amended): the naming policies retry collision resolution without
any bound and define no `PolicyError`: when every candidate path exists,
no number of iterations makes `np_random`, `np_preserve` or
`np_preserve_ext` produce a result — the original recursion/loop never
terminates — and the policies terminate exactly when some generated
candidate does not exist. -/
theorem c7_policies_retry_forever (rnd ts : Nat → String) (fuel k : Nat)
    (path npath : String) :
    np_random (fun _ => true) rnd fuel k path = none ∧
    npPreserveAux (fun _ => true) ts path fuel k npath = none ∧
    np_preserve (fun _ => true) ts fuel path = none ∧
    np_preserve_ext (fun _ => true) rnd fuel k path = none :=
  ⟨np_random_all_exists rnd fuel k path,
    npPreserveAux_all_exists ts path fuel k npath,
    npPreserveAux_all_exists ts path fuel 0 path,
    np_preserve_ext_all_exists rnd fuel k path⟩

/-- C8 (counterexample): `BaseStorage.store` mutates the descriptor: with
`base_uri = "http://x"` (no trailing slash) the call returns and the
descriptor's `base_uri` field afterwards is `"http://x/"`, different from
its value before the call. -/
theorem c8_store_mutates_base_uri :
    BaseStorage.store (fun _ => false) (fun _ => "R") (fun _ => "T") 5 st8 f8 =
      some ("http://x/note.txt", { st8 with base_uri := "http://x/" },
        "/d/note.txt") ∧
    ({ st8 with base_uri := "http://x/" }).base_uri ≠ st8.base_uri :=
  ⟨rfl, by decide⟩

/-- C8 (amended): when `BaseStorage.store` returns, every descriptor field
except `base_uri` equals its value before the call; `base_uri` is
unchanged when it already ends with `'/'` and otherwise has `'/'`
appended (the `self.base_uri += '/'` mutation). -/
theorem c8_store_field_frame (ex : String → Bool) (rnd ts : Nat → String)
    (fuel : Nat) (self : Storage) (finst : FileInst) (u : String)
    (st' : Storage) (nm : String)
    (h : BaseStorage.store ex rnd ts fuel self finst = some (u, st', nm)) :
    st'.name = self.name ∧ st'.dest = self.dest ∧
    st'.name_policy = self.name_policy ∧ st'.structure_ = self.structure_ ∧
    st'.priority = self.priority ∧ st'.weight = self.weight ∧
    st'.base_uri = (if strEndsWith self.base_uri "/" then self.base_uri
      else self.base_uri ++ "/") := by
  unfold BaseStorage.store at h
  cases hg : BaseStorage.get_name ex rnd ts fuel self finst with
  | none => rw [hg] at h; simp at h
  | some name =>
    rw [hg] at h
    simp only [Option.map_some', Option.some.injEq, Prod.mk.injEq] at h
    obtain ⟨-, hst, -⟩ := h
    rw [← hst]
    exact ⟨rfl, rfl, rfl, rfl, rfl, rfl, rfl⟩

/-- C8 witness: a concrete instantiation of `c8_store_field_frame`. -/
theorem c8_store_field_frame_witness :
    ({ st8 with base_uri := "http://x/" }).name = st8.name ∧
    ({ st8 with base_uri := "http://x/" }).dest = st8.dest ∧
    ({ st8 with base_uri := "http://x/" }).name_policy = st8.name_policy ∧
    ({ st8 with base_uri := "http://x/" }).structure_ = st8.structure_ ∧
    ({ st8 with base_uri := "http://x/" }).priority = st8.priority ∧
    ({ st8 with base_uri := "http://x/" }).weight = st8.weight ∧
    ({ st8 with base_uri := "http://x/" }).base_uri =
      (if strEndsWith st8.base_uri "/" then st8.base_uri
        else st8.base_uri ++ "/") :=
  c8_store_field_frame (fun _ => false) (fun _ => "R") (fun _ => "T") 5 st8 f8
    "http://x/note.txt" { st8 with base_uri := "http://x/" } "/d/note.txt" rfl

/-- C9 (counterexample): when the SFTP write raises, the ssh `store`
propagates the error without ever calling `self.client.close()`: the
close count on that exit path is 0, not 1, so the connection is not
released exactly once on every exit path. -/
theorem c9_close_skipped_on_error :
    SshStorage.store (fun _ => false) (fun _ => "R") (fun _ => "T") 5
      (fun _ => false) st8 f8 = some (.error .storeFailure, st8, 0) ∧
    (0 : Nat) ≠ 1 :=
  ⟨rfl, by decide⟩

/-- C9 (amended): the ssh `store` calls `close()` exactly once when the
write succeeds, and zero times when the write raises (the error then
propagates with the connection still open). -/
theorem c9_close_iff_write_ok (ex : String → Bool) (rnd ts : Nat → String)
    (fuel : Nat) (writeOk : String → Bool) (self : Storage)
    (finst : FileInst) (r : Except Err String) (st' : Storage) (c : Nat)
    (h : SshStorage.store ex rnd ts fuel writeOk self finst =
      some (r, st', c)) :
    c = (match r with | Except.ok _ => 1 | Except.error _ => 0) := by
  unfold SshStorage.store at h
  cases hg : BaseStorage.get_name ex rnd ts fuel self finst with
  | none => rw [hg] at h; simp at h
  | some name =>
    rw [hg] at h
    simp only [Option.map_some', Option.some.injEq] at h
    by_cases hw : writeOk name
    · rw [if_pos hw] at h
      obtain ⟨hr, -, -⟩ := Prod.mk.injEq .. ▸ h
      cases hr
      rfl
    · rw [if_neg hw] at h
      obtain ⟨hr, -, -⟩ := Prod.mk.injEq .. ▸ h
      cases hr
      rfl

/-- C9 witness: a concrete instantiation of `c9_close_iff_write_ok`. -/
theorem c9_close_iff_write_ok_witness :
    SshStorage.store (fun _ => false) (fun _ => "R") (fun _ => "T") 5
      (fun _ => false) st8 f8 = some (.error .storeFailure, st8, 0) ∧
    (0 : Nat) = (match (Except.error Err.storeFailure : Except Err String) with
      | Except.ok _ => 1 | Except.error _ => 0) :=
  ⟨rfl, c9_close_iff_write_ok (fun _ => false) (fun _ => "R") (fun _ => "T") 5
    (fun _ => false) st8 f8 (.error .storeFailure) st8 0 rfl⟩

/-- C10: for a fixed descriptor list, the list the router's `store`
iterates — `repo_list` after `sort_repos` — is identical for any two draw
streams, is a permutation of the configured list, and is ascending in
priority with ties ascending in weight: the attempt order is
deterministic, and the random draws of the selection phase never affect
it. -/
theorem c10_attempt_order_deterministic (d d' : Nat → Nat)
    (l : List Storage) :
    (StorageContext.sort_repos d l).1 = (StorageContext.sort_repos d' l).1 ∧
    List.Perm ((StorageContext.sort_repos d l).1) l ∧
    List.Pairwise (fun a b => a.priority < b.priority ∨
      (a.priority = b.priority ∧ a.weight ≤ b.weight))
      ((StorageContext.sort_repos d l).1) := by
  refine ⟨rfl, perm_sortStorages l, ?_⟩
  exact (sorted_sortStorages l).imp (fun h => (storageLe_iff _ _).mp h)

end Storagelib
